import Mathlib

/-!
Verification of the stopwatch interval accumulator in
src/src/stopwatch/useStopwatch.ts.

The hook state consists of three React state cells:
  stopwatch : number      -- displayed value cache
  runtime   : number[]    -- recorded boundary timestamps, in call order
  isRunning : boolean     -- running flag

Timestamps are millisecond readings of Date.now, modelled as Int (JS
subtraction on these values is exact integer arithmetic).  Each operation
takes the clock reading it would consume as an explicit argument.
-/

structure Stopwatch where
  stopwatch : Int
  runtime : List Int
  isRunning : Bool
deriving DecidableEq, Repr

/-- Initial hook state: useState(0), useState([]), useState(false). -/
def Stopwatch.init : Stopwatch :=
  { stopwatch := 0, runtime := [], isRunning := false }

/-- Loop body of split: for i in steps of 2, curr = runtime[i],
next = runtime[i+1]; if next is truthy add next - curr, else add
now - curr.  An out-of-bounds read yields undefined and the number 0 is
also falsy, so the truthy test is: the entry exists and is nonzero. -/
def splitAux (now : Int) : List Int → Int
  | [] => 0
  | [curr] => now - curr
  | curr :: next :: rest =>
    if next ≠ 0 then (next - curr) + splitAux now rest
    else (now - curr) + splitAux now rest

/-- split() — sums the boundary pairs of runtime, without mutating state. -/
def split (s : Stopwatch) (now : Int) : Int :=
  splitAux now s.runtime

/-- startStop (exposed as both()) — always appends the clock reading to
runtime and negates isRunning. -/
def startStop (s : Stopwatch) (now : Int) : Stopwatch :=
  { s with runtime := s.runtime ++ [now], isRunning := !s.isRunning }

/-- start() — if not running, appends the clock reading to runtime and sets
isRunning to true; otherwise does nothing. -/
def start (s : Stopwatch) (now : Int) : Stopwatch :=
  if s.isRunning then s
  else { s with runtime := s.runtime ++ [now], isRunning := true }

/-- stop() — if running, calls onStop(split()) and sets isRunning to false;
otherwise does nothing.  The second component records the value passed to
the onStop callback, if any.  Note the source appends nothing to runtime. -/
def stop (s : Stopwatch) (now : Int) : Stopwatch × Option Int :=
  if s.isRunning then ({ s with isRunning := false }, some (split s now))
  else (s, none)

/-- reset() — setStopwatch(0); setRuntime([]); setIsRunning(false). -/
def reset (s : Stopwatch) : Stopwatch :=
  { s with stopwatch := 0, runtime := [], isRunning := false }

/-- One command of the public command surface, tagged with the clock
reading it consumes. -/
inductive Op where
  | startAt (now : Int)
  | stopAt (now : Int)
  | bothAt (now : Int)
  | resetNow
deriving DecidableEq, Repr

/-- Apply one command to a state, discarding the callback value. -/
def applyOp (s : Stopwatch) : Op → Stopwatch
  | Op.startAt n => start s n
  | Op.stopAt n => (stop s n).1
  | Op.bothAt n => startStop s n
  | Op.resetNow => reset s

/-- Run a command sequence from a given state. -/
def runFrom (s : Stopwatch) (ops : List Op) : Stopwatch :=
  ops.foldl applyOp s

/-- Run a command sequence from the initial state. -/
def run (ops : List Op) : Stopwatch :=
  runFrom Stopwatch.init ops

/-- Apply one command while collecting every value handed to the onStop
callback, in call order. -/
def applyOpCalls (p : Stopwatch × List Int) (op : Op) : Stopwatch × List Int :=
  match op with
  | Op.stopAt n =>
    match stop p.1 n with
    | (s, some v) => (s, p.2 ++ [v])
    | (s, none) => (s, p.2)
  | _ => (applyOp p.1 op, p.2)

/-- Run a command sequence from the initial state, collecting the onStop
callback invocations. -/
def runCalls (ops : List Op) : Stopwatch × List Int :=
  ops.foldl applyOpCalls (Stopwatch.init, [])

/-- Helper for C10: the split loop consumes the list two entries at a
time, so it distributes over an even-length prefix. -/
theorem splitAux_append_even (now : Int) :
    ∀ p q : List Int, p.length % 2 = 0 →
      splitAux now (p ++ q) = splitAux now p + splitAux now q
  | [], q, _ => by simp [splitAux]
  | [x], q, h => by simp at h
  | x :: y :: p, q, h => by
    have ih := splitAux_append_even now p q (by
      have hl : (x :: y :: p).length = p.length + 2 := by simp
      omega)
    by_cases hy : y = 0 <;> simp [splitAux, hy, ih] <;> ring

/-- Claim C1 (code evaluation): after start() at clock 0 and stop() at
clock 1000, the source leaves runtime = [0] (no closing boundary is
appended) and split() keeps advancing with the clock: it returns 2000 at
clock 2000 and 5000 at clock 5000, so split() after a stop() is not
independent of the clock. -/
theorem split_advances_after_stop :
    (run [Op.startAt 0, Op.stopAt 1000]).isRunning = false ∧
    (run [Op.startAt 0, Op.stopAt 1000]).runtime = [0] ∧
    split (run [Op.startAt 0, Op.stopAt 1000]) 2000 = 2000 ∧
    split (run [Op.startAt 0, Op.stopAt 1000]) 5000 = 5000 ∧
    split (run [Op.startAt 0, Op.stopAt 1000]) 2000 ≠
      split (run [Op.startAt 0, Op.stopAt 1000]) 5000 := by
  decide

/-- Claim C2 (code evaluation): on clock readings 0, 1000, 1000, 2000,
5000 the source agrees with the scenario up to the restart — the first
split() returns 1000 and stop() reports 1000 — but the final split()
returns 2000, not the claimed 4000: the restart timestamp 2000 is read as
the closing boundary of the pair started at 0. -/
theorem scenario_trace_eval :
    split (run [Op.startAt 0]) 1000 = 1000 ∧
    (runCalls [Op.startAt 0, Op.stopAt 1000]).2 = [1000] ∧
    (run [Op.startAt 0, Op.stopAt 1000, Op.startAt 2000]).runtime = [0, 2000] ∧
    split (run [Op.startAt 0, Op.stopAt 1000, Op.startAt 2000]) 5000 = 2000 ∧
    split (run [Op.startAt 0, Op.stopAt 1000, Op.startAt 2000]) 5000 ≠ 4000 := by
  decide

/-- Claim C3 (code evaluation): with d1 = 1000 (start at 0, stop at 1000),
a pause until 2000, and d2 = 3000 (start at 2000, stop at 5000), the
second onStop invocation receives 2000 — the distance between the two
start timestamps, i.e. d1 plus the paused gap — not d1 + d2 = 4000. -/
theorem second_stop_reports_interstart_gap :
    (runCalls [Op.startAt 0, Op.stopAt 1000, Op.startAt 2000, Op.stopAt 5000]).2 =
      [1000, 2000] ∧
    (runCalls [Op.startAt 0, Op.stopAt 1000, Op.startAt 2000, Op.stopAt 5000]).2 ≠
      [1000, 1000 + 3000] := by
  decide

/-- Claim C4 (code evaluation): the state reached by start() at clock 0
followed by stop() at clock 1000 has a runtime of odd length while
isRunning is false, violating the parity invariant odd-length implies
running. -/
theorem parity_invariant_fails_after_stop :
    (run [Op.startAt 0, Op.stopAt 1000]).runtime.length % 2 = 1 ∧
    (run [Op.startAt 0, Op.stopAt 1000]).isRunning = false := by
  decide

/-- Claim C5 (code evaluation): from the initial state, both(); both() on
clock readings 1, 2 records the boundaries [1, 2], while start(); stop()
on the same readings records only [1], because stop() appends nothing; the
two boundary sequences differ. -/
theorem both_pair_differs_from_start_stop :
    (run [Op.bothAt 1, Op.bothAt 2]).runtime = [1, 2] ∧
    (run [Op.startAt 1, Op.stopAt 2]).runtime = [1] ∧
    (run [Op.bothAt 1, Op.bothAt 2]).runtime ≠
      (run [Op.startAt 1, Op.stopAt 2]).runtime := by
  decide

/-- Claim C6: on a fresh accumulator, start() at any clock reading a
followed by stop() at reading a + d invokes the onStop callback exactly
once, with the value d, and leaves isRunning false. -/
theorem start_stop_reports_elapsed (a d : Int) :
    runCalls [Op.startAt a, Op.stopAt (a + d)] =
      ({ stopwatch := 0, runtime := [a], isRunning := false }, [d]) := by
  simp [runCalls, applyOpCalls, applyOp, start, stop, split, splitAux,
    Stopwatch.init]

/-- Claim C7: reset() from any state restores exactly the initial state,
so split() returns 0 at every clock reading, isRunning is false, and every
subsequent command sequence behaves as on a fresh accumulator. -/
theorem reset_restores_fresh_state (s : Stopwatch) :
    reset s = Stopwatch.init ∧
    (reset s).isRunning = false ∧
    (∀ now, split (reset s) now = 0) ∧
    ∀ ops, runFrom (reset s) ops = runFrom Stopwatch.init ops := by
  refine ⟨rfl, rfl, fun now => rfl, fun ops => rfl⟩

/-- Claim C8: a second start() with no intervening stop() is a no-op — the
state is identical to that after the first start() alone, hence every
later split() returns the same value. -/
theorem start_idempotent (s : Stopwatch) (t1 t2 : Int) :
    start (start s t1) t2 = start s t1 ∧
    ∀ now, split (start (start s t1) t2) now = split (start s t1) now := by
  have h : start (start s t1) t2 = start s t1 := by
    by_cases hr : s.isRunning <;> simp [start, hr]
  exact ⟨h, fun now => by rw [h]⟩

/-- Claim C9: stop() on an idle accumulator does not invoke the onStop
callback, leaves the state unchanged, and leaves split() at the same clock
reading unchanged. -/
theorem stop_idle_noop (s : Stopwatch) (now : Int) (h : s.isRunning = false) :
    stop s now = (s, none) ∧ split (stop s now).1 now = split s now := by
  simp [stop, h]

/-- Witness for C9 at the initial state and clock reading 0. -/
theorem stop_idle_noop_witness :
    Stopwatch.init.isRunning = false ∧
    (stop Stopwatch.init 0 = (Stopwatch.init, none) ∧
      split (stop Stopwatch.init 0).1 0 = split Stopwatch.init 0) :=
  ⟨rfl, stop_idle_noop Stopwatch.init 0 rfl⟩

/-- Claim C10: when the entry at an odd index of runtime is 0 — i.e. a
zero clock reading recorded in closing position, as both() records when
the clock reads 0 — split() falls into the falsy branch and adds
now - start for that pair instead of 0 - start: the pair is treated as
still open. -/
theorem split_zero_stop_boundary_open (now c : Int) (p rest : List Int)
    (h : p.length % 2 = 0) :
    splitAux now (p ++ c :: 0 :: rest) =
      splitAux now p + ((now - c) + splitAux now rest) := by
  rw [splitAux_append_even now p (c :: 0 :: rest) h]
  simp [splitAux]

/-- Witness for C10 at now = 7 with the pair (2, 0) and empty context. -/
theorem split_zero_stop_boundary_open_witness :
    ([] : List Int).length % 2 = 0 ∧
    splitAux 7 (([] : List Int) ++ 2 :: 0 :: []) =
      splitAux 7 ([] : List Int) + ((7 - 2) + splitAux 7 ([] : List Int)) :=
  ⟨rfl, split_zero_stop_boundary_open 7 2 [] [] rfl⟩
